import Mathlib

/-!
Verification development for the capsule8 sensor probe-registration-and-decode
layer (package sensor: syscall and network telemetry event sources).

The Go source is shallowly embedded:
* perf samples become association lists of typed field values; the perf
  getters (GetSignedInt64 and friends) return the Go zero value when the
  field is absent or has the wrong type, matching the perf package
  behaviour relied upon by the source (every call discards the error).
* the external tracing engine (Monitor) becomes an explicit record of the
  calls made to it (successful and failed tracepoint registrations, kprobe
  registration attempts, UnregisterEvent calls) plus an event-id counter.
* the sensor's shared mutable state (dummySyscallEventCount,
  dummySyscallEventID, the once-resolved syscall tracepoint names) becomes
  an explicit state record threaded through the operations; each Go atomic
  operation sequence of an acquire or release becomes one step of a state
  machine, and concurrency claims are read over arbitrary sequential
  interleavings of those atomic steps.
* fallible engine calls take an explicit Bool oracle deciding success,
  since success depends on the live kernel.
-/

/-! ## Samples and field extraction -/

/-- A typed field value carried by a perf sample. -/
inductive FieldValue where
  | s64 (v : Int)
  | u64 (v : Nat)
  | u32 (v : Nat)
  | u16 (v : Nat)
  | str (v : String)
deriving DecidableEq, Repr

/-- A perf.Sample, already parsed by the tracing engine: an association
list from declared field name to typed value. A field may be absent. -/
abbrev Sample := List (String × FieldValue)

/-- Field lookup by name (first binding wins). -/
def Sample.lookupField : Sample → String → Option FieldValue
  | [], _ => Option.none
  | (k, v) :: rest, n => if k = n then some v else Sample.lookupField rest n

/-- sample.GetSignedInt64: the value when present with signed 64-bit type,
otherwise the Go zero value 0 (the source discards the error return). -/
def Sample.GetSignedInt64 (sm : Sample) (n : String) : Int :=
  match Sample.lookupField sm n with
  | some (FieldValue.s64 v) => v
  | _ => 0

/-- sample.GetUnsignedInt64 with zero default. -/
def Sample.GetUnsignedInt64 (sm : Sample) (n : String) : Nat :=
  match Sample.lookupField sm n with
  | some (FieldValue.u64 v) => v
  | _ => 0

/-- sample.GetUnsignedInt32 with zero default. -/
def Sample.GetUnsignedInt32 (sm : Sample) (n : String) : Nat :=
  match Sample.lookupField sm n with
  | some (FieldValue.u32 v) => v
  | _ => 0

/-- sample.GetUnsignedInt16 with zero default. -/
def Sample.GetUnsignedInt16 (sm : Sample) (n : String) : Nat :=
  match Sample.lookupField sm n with
  | some (FieldValue.u16 v) => v
  | _ => 0

/-- sample.GetString with empty-string default. -/
def Sample.GetString (sm : Sample) (n : String) : String :=
  match Sample.lookupField sm n with
  | some (FieldValue.str v) => v
  | _ => ""

/-! ## Telemetry event records and decode handlers

The common envelope initializer InitWithSample lives outside the embedded
source files, so its outcome is an explicit Bool parameter of each handler:
true means the envelope (attribution/timestamp) initialized, false means it
failed. A handler returns Option: some e means exactly one event e was
handed to DispatchEvent, Option.none means the sample was dropped with no
dispatch. -/

/-- argKeys from the syscall source file. -/
def argKeys : List String := ["arg0", "arg1", "arg2", "arg3", "arg4", "arg5"]

/-- SyscallEnterTelemetryEvent payload (the common envelope is abstracted
by the initOk flag). Arguments lists arg0..arg5 in order. -/
structure SyscallEnterTelemetryEvent where
  ID : Int
  Arguments : List Nat
deriving DecidableEq, Repr

/-- SyscallExitTelemetryEvent payload. -/
structure SyscallExitTelemetryEvent where
  ID : Int
  Return : Int
deriving DecidableEq, Repr

/-- Subscription.handleSyscallTraceEnter: if the envelope initializes,
extract id and arg0..arg5 (zero when absent) and dispatch exactly one
event; otherwise dispatch nothing. -/
def handleSyscallTraceEnter (initOk : Bool) (sample : Sample) :
    Option SyscallEnterTelemetryEvent :=
  if initOk then
    some { ID := Sample.GetSignedInt64 sample "id",
           Arguments := argKeys.map (Sample.GetUnsignedInt64 sample) }
  else Option.none

/-- Subscription.handleSysExit: id and ret with zero defaults, dispatched
only when the envelope initializes. -/
def handleSysExit (initOk : Bool) (sample : Sample) :
    Option SyscallExitTelemetryEvent :=
  if initOk then
    some { ID := Sample.GetSignedInt64 sample "id",
           Return := Sample.GetSignedInt64 sample "ret" }
  else Option.none

/-! ## Network address decoding -/

/-- unix.AF_LOCAL (Linux). -/
def AF_LOCAL : Nat := 1

/-- unix.AF_INET (Linux). -/
def AF_INET : Nat := 2

/-- unix.AF_INET6 (Linux). -/
def AF_INET6 : Nat := 10

/-- NetworkAddressTelemetryEventData: the address sub-record shared by the
address-bearing network events. -/
structure NetworkAddressTelemetryEventData where
  Family : Nat := 0
  UnixPath : String := ""
  IPv4Address : Nat := 0
  IPv4Port : Nat := 0
  IPv6AddressHigh : Nat := 0
  IPv6AddressLow : Nat := 0
  IPv6Port : Nat := 0
deriving DecidableEq, Repr

/-- The Go zero value of NetworkAddressTelemetryEventData, as produced by
a var declaration. -/
def NetworkAddressTelemetryEventData.zero : NetworkAddressTelemetryEventData := {}

/-- NetworkAddressTelemetryEventData.initWithSample: read sa_family, then
populate exactly the representation selected by the switch on the decoded
family; the other representations keep the value already in the record. -/
def NetworkAddressTelemetryEventData.initWithSample
    (ted : NetworkAddressTelemetryEventData) (sample : Sample) :
    NetworkAddressTelemetryEventData :=
  let fam := Sample.GetUnsignedInt16 sample "sa_family"
  let ted1 := { ted with Family := fam }
  if fam = AF_LOCAL then
    { ted1 with UnixPath := Sample.GetString sample "sun_path" }
  else if fam = AF_INET then
    { ted1 with IPv4Address := Sample.GetUnsignedInt32 sample "sin_addr",
                IPv4Port := Sample.GetUnsignedInt16 sample "sin_port" }
  else if fam = AF_INET6 then
    { ted1 with IPv6AddressHigh := Sample.GetUnsignedInt64 sample "sin6_addr_high",
                IPv6AddressLow := Sample.GetUnsignedInt64 sample "sin6_addr_low",
                IPv6Port := Sample.GetUnsignedInt16 sample "sin6_port" }
  else ted1

/-- The address record decoded from a sample starting from the Go zero
value, exactly as the handlers do with a fresh var and initWithSample. -/
def decodeNetworkAddress (sample : Sample) : NetworkAddressTelemetryEventData :=
  NetworkAddressTelemetryEventData.zero.initWithSample sample

/-- NetworkBindAttemptTelemetryEvent payload: the attempt data (fd) plus
the address sub-record. -/
structure NetworkBindAttemptTelemetryEvent where
  FD : Nat
  addr : NetworkAddressTelemetryEventData
deriving DecidableEq, Repr

/-- Subscription.handleSysBind: when the envelope initializes, fill the
attempt data and address data from the sample and dispatch exactly one
event; otherwise dispatch nothing. -/
def handleSysBind (initOk : Bool) (sample : Sample) :
    Option NetworkBindAttemptTelemetryEvent :=
  if initOk then
    some { FD := Sample.GetUnsignedInt64 sample "fd",
           addr := decodeNetworkAddress sample }
  else Option.none

/-! ## The tracing engine and the sensor state

The engine (perf monitor) is a record of calls made to it. Event ids are
allocated from a counter; a successful RegisterTracepoint or registerKprobe
call returns the fresh id. UnregisterEvent records the id it is asked to
remove. -/

/-- One successful RegisterTracepoint call as seen by the engine:
tracepoint name, target event group, filter string, assigned event id. -/
structure TracepointRegistration where
  name : String
  groupID : Nat
  filt : String
  eventID : Nat
deriving DecidableEq, Repr

/-- One registerKprobe attempt as submitted to the engine. -/
structure KprobeRequest where
  symbol : String
  fetchargs : String
deriving DecidableEq, Repr

/-- The state of the external tracing engine: a trace of the calls made to
it, plus the event-id allocator. -/
structure EngineState where
  tracepointRegs : List TracepointRegistration := []
  failedTracepointRegs : List TracepointRegistration := []
  kprobeRegs : List KprobeRequest := []
  unregisteredIDs : List Nat := []
  nextEventID : Nat := 1
deriving DecidableEq, Repr

/-- Monitor().RegisterTracepoint: the ok oracle decides whether the live
engine accepts the request; on success the fresh event id is returned and
the registration recorded, on failure the attempt is recorded as failed. -/
def RegisterTracepoint (ok : Bool) (name : String) (groupID : Nat)
    (filt : String) (e : EngineState) : Option Nat × EngineState :=
  if ok then
    (some e.nextEventID,
     { e with
        tracepointRegs := e.tracepointRegs ++ [⟨name, groupID, filt, e.nextEventID⟩],
        nextEventID := e.nextEventID + 1 })
  else
    (Option.none,
     { e with failedTracepointRegs := e.failedTracepointRegs ++ [⟨name, groupID, filt, 0⟩] })

/-- Monitor().UnregisterEvent. -/
def UnregisterEvent (eventID : Nat) (e : EngineState) : EngineState :=
  { e with unregisteredIDs := e.unregisteredIDs ++ [eventID] }

/-- Subscription.registerKprobe as seen by the engine: the attempt (symbol
and fetch-arg string) is always submitted; the ok oracle decides success. -/
def registerKprobe (ok : Bool) (symbol fetchargs : String) (e : EngineState) :
    Option Nat × EngineState :=
  let e1 := { e with kprobeRegs := e.kprobeRegs ++ [⟨symbol, fetchargs⟩] }
  if ok then (some e1.nextEventID, { e1 with nextEventID := e1.nextEventID + 1 })
  else (Option.none, e1)

/-- The once-guarded process-wide name state: syscallOnce together with
syscallEnterName and syscallExitName. -/
structure NamesState where
  resolved : Bool := false
  syscallEnterName : String := ""
  syscallExitName : String := ""
deriving DecidableEq, Repr

/-- The sensor state shared by all subscriptions: the dummy-probe atomic
reference count and event id, the container cache event group id, the
event-group allocator, the engine, and the once-resolved names. -/
structure SensorState where
  dummySyscallEventCount : Int := 0
  dummySyscallEventID : Nat := 0
  containerCacheGroupID : Nat := 0
  nextGroupID : Nat := 1
  engine : EngineState := {}
  names : NamesState := {}
deriving DecidableEq, Repr

/-- A subscription: its exclusively owned event group id, once created. -/
structure Subscription where
  eventGroupID : Option Nat := Option.none
deriving DecidableEq, Repr

/-- The filter of the dummy syscall event, never true. -/
def dummyFilter : String := "id == 0x7fffffff"

/-! ## The dummy syscall probe: global strategy (kernel major >= 3) -/

/-- Subscription.registerGlobalDummySyscallEvent, one atomic acquire step:
increment the count; on the transition to 1 register the dummy tracepoint
under the container cache event group, rolling the increment back and
returning false when the engine rejects it; any other transition makes no
engine call and returns true. -/
def registerGlobalDummySyscallEvent (dummyOk : Bool) (s : SensorState) :
    Bool × SensorState :=
  let c := s.dummySyscallEventCount + 1
  if c = 1 then
    match RegisterTracepoint dummyOk s.names.syscallEnterName
        s.containerCacheGroupID dummyFilter s.engine with
    | (some eventID, eng) =>
        (true, { s with dummySyscallEventCount := c,
                         dummySyscallEventID := eventID,
                         engine := eng })
    | (Option.none, eng) =>
        (false, { s with dummySyscallEventCount := c - 1, engine := eng })
  else
    (true, { s with dummySyscallEventCount := c })

/-- The unregister closure installed by RegisterSyscallEnterEventFilter for
the global strategy, one atomic release step: read the dummy event id,
decrement the count, and call UnregisterEvent exactly on the transition
to 0. -/
def globalDummyUnregister (s : SensorState) : SensorState :=
  let eventID := s.dummySyscallEventID
  let c := s.dummySyscallEventCount - 1
  if c = 0 then
    { s with dummySyscallEventCount := c, engine := UnregisterEvent eventID s.engine }
  else
    { s with dummySyscallEventCount := c }

/-- One operation on the global dummy probe: an acquire (with the engine
success oracle for the registration it may make) or a release. -/
inductive DummyOp where
  | acquire (engineOk : Bool)
  | release
deriving DecidableEq, Repr

/-- Whether an operation is a release. -/
def DummyOp.isRelease : DummyOp → Bool
  | DummyOp.release => true
  | _ => false

/-- One atomic step of the global dummy probe state machine. -/
def stepDummy : DummyOp → SensorState → SensorState
  | DummyOp.acquire ok, s => (registerGlobalDummySyscallEvent ok s).2
  | DummyOp.release, s => globalDummyUnregister s

/-- Run a sequence of dummy-probe operations. -/
def runDummy (s : SensorState) (ops : List DummyOp) : SensorState :=
  ops.foldl (fun t op => stepDummy op t) s

/-- A sequence of operations is realizable by the program when every
release happens while the count is positive: the unregister closure only
exists in an event sink created by a successful acquire, so the number of
releases never exceeds the number of outstanding successful acquires,
which the count tracks. -/
def legalDummy : SensorState → List DummyOp → Bool
  | _, [] => true
  | s, DummyOp.acquire ok :: ops =>
      legalDummy (stepDummy (DummyOp.acquire ok) s) ops
  | s, DummyOp.release :: ops =>
      decide (1 ≤ s.dummySyscallEventCount) && legalDummy (stepDummy DummyOp.release s) ops

/-- The initial sensor state of a fresh process. -/
def initialSensorState : SensorState := {}

/-! ## Syscall tracepoint name resolution and kprobe symbol selection -/

/-- The kernel environment the sensor introspects: kernel major version,
existence of the two candidate sys_enter tracepoints, and availability of
the preferred syscall-entry kprobe symbol. -/
structure KernelEnv where
  kernelMajor : Nat
  rawSysEnterExists : Bool
  sysEnterExists : Bool
  phase1Available : Bool
deriving DecidableEq, Repr

/-- Subscription.initSyscallNames as a function of the tracepoints that
exist: prefer raw_syscalls, fall back to syscalls, and return Option.none
for the glog.Fatal abort when neither sys_enter tracepoint exists. -/
def initSyscallNames (env : KernelEnv) : Option (String × String) :=
  if env.rawSysEnterExists then
    some ("raw_syscalls/sys_enter", "raw_syscalls/sys_exit")
  else if env.sysEnterExists then
    some ("syscalls/sys_enter", "syscalls/sys_exit")
  else Option.none

/-- syscallOnce.Do(s.initSyscallNames): resolve the names only when not yet
resolved; a resolved state is returned unchanged. Option.none propagates
the fatal abort of a failed first resolution. -/
def syscallOnceDo (env : KernelEnv) (ns : NamesState) : Option NamesState :=
  if ns.resolved then some ns
  else
    match initSyscallNames env with
    | some (enter, exit) =>
        some { resolved := true, syscallEnterName := enter, syscallExitName := exit }
    | Option.none => Option.none

/-- syscallNewEnterKprobeAddress. -/
def syscallNewEnterKprobeAddress : String := "syscall_trace_enter_phase1"

/-- syscallOldEnterKprobeAddress. -/
def syscallOldEnterKprobeAddress : String := "syscall_trace_enter"

/-- syscallEnterKprobeFetchargs: the pt_regs offsets for id and arg0..arg5,
concatenated exactly as in the source. -/
def syscallEnterKprobeFetchargs : String :=
  "id=+120(%di):s64 " ++
  "arg0=+112(%di):u64 " ++
  "arg1=+104(%di):u64 " ++
  "arg2=+96(%di):u64 " ++
  "arg3=+56(%di):u64 " ++
  "arg4=+72(%di):u64 " ++
  "arg5=+64(%di):u64"

/-! ## The local dummy strategy (kernel major < 3) and registration -/

/-- Modelled from the spec: Subscription.createEventGroup is not among the
embedded source files; per the spec each subscription creates its own event
group, owned exclusively by it, so an unset group id is assigned the next
fresh group id and an already-created group is kept. The ok oracle decides
engine acceptance. -/
def createEventGroup (ok : Bool) (sub : Subscription) (s : SensorState) :
    Option (Subscription × SensorState) :=
  if ok then
    match sub.eventGroupID with
    | some _ => some (sub, s)
    | Option.none =>
        some ({ sub with eventGroupID := some s.nextGroupID },
              { s with nextGroupID := s.nextGroupID + 1 })
  else Option.none

/-- Subscription.registerLocalDummySyscallEvent: create the subscription's
own event group, then register the dummy tracepoint in it, discarding the
returned event id; false on either failure. -/
def registerLocalDummySyscallEvent (createGroupOk dummyOk : Bool)
    (sub : Subscription) (s : SensorState) : Bool × Subscription × SensorState :=
  match createEventGroup createGroupOk sub s with
  | Option.none => (false, sub, s)
  | some (sub1, s1) =>
      match RegisterTracepoint dummyOk s1.names.syscallEnterName
          (sub1.eventGroupID.getD 0) dummyFilter s1.engine with
      | (some _, eng) => (true, sub1, { s1 with engine := eng })
      | (Option.none, eng) => (false, sub1, { s1 with engine := eng })

/-- The unregister hook stored on an event sink: nil for the local
strategy, the global release closure for the global strategy. -/
inductive UnregisterHook where
  | noHook
  | globalRelease
deriving DecidableEq, Repr

/-- Apply an unregister hook: the nil hook does nothing, the global hook
runs the release closure. -/
def applyHook : UnregisterHook → SensorState → SensorState
  | UnregisterHook.noHook, s => s
  | UnregisterHook.globalRelease, s => globalDummyUnregister s

/-- The event sink created by a successful kprobe registration: the
engine event id plus the unregister hook for the dummy dependency. -/
structure EventSink where
  eventID : Nat
  unregisterHook : UnregisterHook
deriving DecidableEq, Repr

/-- The outcome of a RegisterSyscallEnterEventFilter call: the event sink
when the kprobe registered, and the updated subscription and sensor. -/
structure RegisterOutcome where
  sink : Option EventSink
  sub : Subscription
  sensor : SensorState
deriving DecidableEq, Repr

/-- The per-call success oracles for the engine calls a single
RegisterSyscallEnterEventFilter call can make. -/
structure CallOracle where
  createGroupOk : Bool
  dummyOk : Bool
  kprobeOk : Bool
deriving DecidableEq, Repr

/-- The tail of RegisterSyscallEnterEventFilter once the dummy probe is
acquired: choose the kprobe symbol by availability, submit the kprobe with
the fixed fetchargs; on engine failure run the unregister hook (nil for the
local strategy), on success store the hook on the new event sink. -/
def finishKprobe (env : KernelEnv) (o : CallOracle) (hook : UnregisterHook)
    (sub : Subscription) (s : SensorState) : RegisterOutcome :=
  let kprobeSymbol :=
    if env.phase1Available then syscallNewEnterKprobeAddress
    else syscallOldEnterKprobeAddress
  match registerKprobe o.kprobeOk kprobeSymbol syscallEnterKprobeFetchargs s.engine with
  | (some id, eng) =>
      { sink := some { eventID := id, unregisterHook := hook },
        sub := sub, sensor := { s with engine := eng } }
  | (Option.none, eng) =>
      { sink := Option.none, sub := sub,
        sensor := applyHook hook { s with engine := eng } }

/-- Subscription.RegisterSyscallEnterEventFilter: resolve the names once
(Option.none is the fatal abort), pick the dummy strategy by kernel major
version (local installs no unregister hook, global installs the release
closure), and when the dummy probe is acquired register the syscall-enter
kprobe. -/
def RegisterSyscallEnterEventFilter (env : KernelEnv) (o : CallOracle)
    (sub : Subscription) (s : SensorState) : Option RegisterOutcome :=
  match syscallOnceDo env s.names with
  | Option.none => Option.none
  | some ns =>
      let s1 : SensorState := { s with names := ns }
      if env.kernelMajor < 3 then
        match registerLocalDummySyscallEvent o.createGroupOk o.dummyOk sub s1 with
        | (false, sub2, s2) => some { sink := Option.none, sub := sub2, sensor := s2 }
        | (true, sub2, s2) => some (finishKprobe env o UnregisterHook.noHook sub2 s2)
      else
        match registerGlobalDummySyscallEvent o.dummyOk s1 with
        | (false, s2) => some { sink := Option.none, sub := sub, sensor := s2 }
        | (true, s2) => some (finishKprobe env o UnregisterHook.globalRelease sub s2)

/-- Modelled from the spec: subscription teardown is not among the embedded
source files; per the spec it unregisters every owned probe and releases
the dummy-probe dependency through the sink's unregister hook (a nil hook
releases nothing). -/
def teardownSink (sink : EventSink) (s : SensorState) : SensorState :=
  applyHook sink.unregisterHook
    { s with engine := UnregisterEvent sink.eventID s.engine }

/-! ## Concrete scenario: kernel major 2, subscribe twice, unsubscribe once -/

/-- A simulated kernel with major version 2 where every tracepoint and
symbol exists. -/
def envMajor2 : KernelEnv :=
  { kernelMajor := 2, rawSysEnterExists := true,
    sysEnterExists := true, phase1Available := true }

/-- An oracle accepting every engine call. -/
def oracleAllOk : CallOracle := { createGroupOk := true, dummyOk := true, kprobeOk := true }

/-- Subscribe two fresh subscriptions on the simulated major-2 kernel, then
tear down the first subscription's event sink. -/
def localScenarioFinal : Option SensorState :=
  match RegisterSyscallEnterEventFilter envMajor2 oracleAllOk {} initialSensorState with
  | some out1 =>
      match RegisterSyscallEnterEventFilter envMajor2 oracleAllOk {} out1.sensor with
      | some out2 =>
          match out1.sink with
          | some sink1 => some (teardownSink sink1 out2.sensor)
          | Option.none => Option.none
      | Option.none => Option.none
  | Option.none => Option.none

/-- No event id assigned to a dummy tracepoint registration has been passed
to UnregisterEvent. -/
def noDummyUnregistered (s : SensorState) : Bool :=
  s.engine.tracepointRegs.all
    (fun r => !(s.engine.unregisteredIDs.contains r.eventID))


/-! ## Scenario inputs -/

/-- The Scenario B sample: a bind sample with family AF_INET, port 80,
address 0x7F000001 and nothing else. -/
def bindScenarioSample : Sample :=
  [("sa_family", FieldValue.u16 2), ("sin_port", FieldValue.u16 80),
   ("sin_addr", FieldValue.u32 0x7F000001)]

/-! ## Claims about decoding (C7, C8, C10) -/

/-- C7: decoding is total and all-or-nothing. For every sample and each
modelled event kind, a successful envelope initialization dispatches
exactly one complete event whose fields come from the zero-defaulting
getters, a failed initialization dispatches nothing, and every getter
returns the zero value of its declared type on a field absent from the
sample. -/
theorem claim_C7_decode_totality :
    ∀ sample : Sample,
      handleSyscallTraceEnter false sample = Option.none ∧
      handleSysExit false sample = Option.none ∧
      handleSysBind false sample = Option.none ∧
      handleSyscallTraceEnter true sample =
        some { ID := Sample.GetSignedInt64 sample "id",
               Arguments := argKeys.map (Sample.GetUnsignedInt64 sample) } ∧
      handleSysExit true sample =
        some { ID := Sample.GetSignedInt64 sample "id",
               Return := Sample.GetSignedInt64 sample "ret" } ∧
      handleSysBind true sample =
        some { FD := Sample.GetUnsignedInt64 sample "fd",
               addr := decodeNetworkAddress sample } ∧
      (∀ n : String, Sample.lookupField sample n = Option.none →
        Sample.GetSignedInt64 sample n = 0 ∧
        Sample.GetUnsignedInt64 sample n = 0 ∧
        Sample.GetUnsignedInt32 sample n = 0 ∧
        Sample.GetUnsignedInt16 sample n = 0 ∧
        Sample.GetString sample n = "") := by
  intro sample
  refine ⟨rfl, rfl, rfl, rfl, rfl, rfl, ?_⟩
  intro n h
  simp [Sample.GetSignedInt64, Sample.GetUnsignedInt64, Sample.GetUnsignedInt32,
    Sample.GetUnsignedInt16, Sample.GetString, h]

/-- C7 witness: the getters on the empty sample (every field absent) give
the zero values. -/
theorem claim_C7_witness :
    Sample.GetSignedInt64 [] "id" = 0 ∧
    Sample.GetUnsignedInt64 [] "id" = 0 ∧
    Sample.GetUnsignedInt32 [] "id" = 0 ∧
    Sample.GetUnsignedInt16 [] "id" = 0 ∧
    Sample.GetString [] "id" = "" :=
  (claim_C7_decode_totality []).2.2.2.2.2.2 "id" rfl

/-- C8: exactly one address representation is populated per decoded
family, and the Scenario B bind sample decodes to IPv4 address 0x7F000001,
port 80, with IPv6 and UNIX fields zero. -/
theorem claim_C8_address_exclusivity :
    (∀ sample : Sample, (decodeNetworkAddress sample).Family = AF_INET →
        (decodeNetworkAddress sample).UnixPath = "" ∧
        (decodeNetworkAddress sample).IPv6AddressHigh = 0 ∧
        (decodeNetworkAddress sample).IPv6AddressLow = 0 ∧
        (decodeNetworkAddress sample).IPv6Port = 0) ∧
    (∀ sample : Sample, (decodeNetworkAddress sample).Family = AF_INET6 →
        (decodeNetworkAddress sample).UnixPath = "" ∧
        (decodeNetworkAddress sample).IPv4Address = 0 ∧
        (decodeNetworkAddress sample).IPv4Port = 0) ∧
    (∀ sample : Sample, (decodeNetworkAddress sample).Family = AF_LOCAL →
        (decodeNetworkAddress sample).IPv4Address = 0 ∧
        (decodeNetworkAddress sample).IPv4Port = 0 ∧
        (decodeNetworkAddress sample).IPv6AddressHigh = 0 ∧
        (decodeNetworkAddress sample).IPv6AddressLow = 0 ∧
        (decodeNetworkAddress sample).IPv6Port = 0) ∧
    handleSysBind true bindScenarioSample =
      some { FD := 0,
             addr := { Family := 2, UnixPath := "", IPv4Address := 0x7F000001,
                       IPv4Port := 80, IPv6AddressHigh := 0,
                       IPv6AddressLow := 0, IPv6Port := 0 } } := by
  refine ⟨?_, ?_, ?_, by decide⟩ <;>
    · intro sample
      by_cases h1 : Sample.GetUnsignedInt16 sample "sa_family" = AF_LOCAL
      · simp [decodeNetworkAddress, NetworkAddressTelemetryEventData.initWithSample,
          NetworkAddressTelemetryEventData.zero, h1, AF_LOCAL, AF_INET, AF_INET6]
      · by_cases h2 : Sample.GetUnsignedInt16 sample "sa_family" = AF_INET
        · simp [decodeNetworkAddress, NetworkAddressTelemetryEventData.initWithSample,
            NetworkAddressTelemetryEventData.zero, h1, h2, AF_LOCAL, AF_INET, AF_INET6]
        · by_cases h3 : Sample.GetUnsignedInt16 sample "sa_family" = AF_INET6
          · simp [decodeNetworkAddress, NetworkAddressTelemetryEventData.initWithSample,
              NetworkAddressTelemetryEventData.zero, h1, h2, h3, AF_LOCAL, AF_INET, AF_INET6]
          · simp only [AF_LOCAL, AF_INET, AF_INET6] at h1 h2 h3
            simp [decodeNetworkAddress, NetworkAddressTelemetryEventData.initWithSample,
              NetworkAddressTelemetryEventData.zero, h1, h2, h3, AF_LOCAL, AF_INET, AF_INET6]

/-- C8 witness: the Scenario B sample decodes with family AF_INET and zero
UNIX and IPv6 fields. -/
theorem claim_C8_witness :
    (decodeNetworkAddress bindScenarioSample).UnixPath = "" ∧
    (decodeNetworkAddress bindScenarioSample).IPv6AddressHigh = 0 ∧
    (decodeNetworkAddress bindScenarioSample).IPv6AddressLow = 0 ∧
    (decodeNetworkAddress bindScenarioSample).IPv6Port = 0 :=
  claim_C8_address_exclusivity.1 bindScenarioSample (by decide)

/-- C10: a sample whose decoded sa_family is none of AF_LOCAL, AF_INET,
AF_INET6 decodes to the record carrying that family with every address
representation still at its zero value. -/
theorem claim_C10_unknown_family :
    ∀ sample : Sample,
      Sample.GetUnsignedInt16 sample "sa_family" ≠ AF_LOCAL →
      Sample.GetUnsignedInt16 sample "sa_family" ≠ AF_INET →
      Sample.GetUnsignedInt16 sample "sa_family" ≠ AF_INET6 →
      decodeNetworkAddress sample =
        { Family := Sample.GetUnsignedInt16 sample "sa_family" } := by
  intro sample h1 h2 h3
  simp only [AF_LOCAL, AF_INET, AF_INET6] at h1 h2 h3
  simp [decodeNetworkAddress, NetworkAddressTelemetryEventData.initWithSample,
    NetworkAddressTelemetryEventData.zero, h1, h2, h3, AF_LOCAL, AF_INET, AF_INET6]

/-- C10 witness: a sample with sa_family 3 decodes to family 3 and all
address representations zero. -/
theorem claim_C10_witness :
    decodeNetworkAddress [("sa_family", FieldValue.u16 3)] = { Family := 3 } :=
  claim_C10_unknown_family [("sa_family", FieldValue.u16 3)]
    (by decide) (by decide) (by decide)

/-! ## Helper lemmas on the dummy-probe state machine -/

/-- Running a concatenation of operation sequences composes. -/
theorem runDummy_append (s : SensorState) (xs ys : List DummyOp) :
    runDummy s (xs ++ ys) = runDummy (runDummy s xs) ys :=
  List.foldl_append _ _ _ _

/-- Unfolding one step of a run. -/
theorem runDummy_cons (s : SensorState) (op : DummyOp) (ops : List DummyOp) :
    runDummy s (op :: ops) = runDummy (stepDummy op s) ops := rfl

/-- An acquire while the count is positive only increments the count. -/
theorem stepDummy_acquire_pos (s : SensorState)
    (h : 1 ≤ s.dummySyscallEventCount) (ok : Bool) :
    stepDummy (DummyOp.acquire ok) s =
      { s with dummySyscallEventCount := s.dummySyscallEventCount + 1 } := by
  unfold stepDummy registerGlobalDummySyscallEvent
  have hc : ¬(s.dummySyscallEventCount + 1 = 1) := by omega
  simp [hc]

/-- An acquire with a working engine from count zero registers the dummy
tracepoint under the container cache group and stores the fresh event
id. -/
theorem stepDummy_acquire_zero (s : SensorState)
    (h : s.dummySyscallEventCount = 0) :
    stepDummy (DummyOp.acquire true) s =
      { s with dummySyscallEventCount := 1,
               dummySyscallEventID := s.engine.nextEventID,
               engine := { s.engine with
                  tracepointRegs := s.engine.tracepointRegs ++
                    [⟨s.names.syscallEnterName, s.containerCacheGroupID,
                      dummyFilter, s.engine.nextEventID⟩],
                  nextEventID := s.engine.nextEventID + 1 } } := by
  unfold stepDummy registerGlobalDummySyscallEvent RegisterTracepoint
  simp [h]

/-- A release with at least two holders only decrements the count. -/
theorem stepDummy_release_big (s : SensorState)
    (h : 2 ≤ s.dummySyscallEventCount) :
    stepDummy DummyOp.release s =
      { s with dummySyscallEventCount := s.dummySyscallEventCount - 1 } := by
  unfold stepDummy globalDummyUnregister
  have hc : ¬(s.dummySyscallEventCount - 1 = 0) := by omega
  simp [hc]

/-- The release by the last holder unregisters the stored dummy event. -/
theorem stepDummy_release_last (s : SensorState)
    (h : s.dummySyscallEventCount = 1) :
    stepDummy DummyOp.release s =
      { s with dummySyscallEventCount := 0,
               engine := UnregisterEvent s.dummySyscallEventID s.engine } := by
  unfold stepDummy globalDummyUnregister
  simp [h]

/-- Acquires keep only incrementing while the count stays positive. -/
theorem runDummy_acquires_pos (n : Nat) :
    ∀ s : SensorState, 1 ≤ s.dummySyscallEventCount →
      runDummy s (List.replicate n (DummyOp.acquire true)) =
        { s with dummySyscallEventCount := s.dummySyscallEventCount + n } := by
  induction n with
  | zero =>
      intro s h
      simp [runDummy]
  | succ n ih =>
      intro s h
      rw [List.replicate_succ, runDummy_cons, stepDummy_acquire_pos s h true]
      rw [ih _ (by simp; omega)]
      have harith : s.dummySyscallEventCount + 1 + (n : Int) =
          s.dummySyscallEventCount + ((n + 1 : Nat) : Int) := by push_cast; ring
      show { s with dummySyscallEventCount := s.dummySyscallEventCount + 1 + (n : Int) } =
        { s with dummySyscallEventCount := s.dummySyscallEventCount + ((n + 1 : Nat) : Int) }
      rw [harith]

/-- Draining a count of n+1 with n+1 releases unregisters the stored dummy
event exactly once, at the last release. -/
theorem runDummy_releases (n : Nat) :
    ∀ s : SensorState, s.dummySyscallEventCount = (n : Int) + 1 →
      runDummy s (List.replicate (n + 1) DummyOp.release) =
        { s with dummySyscallEventCount := 0,
                 engine := UnregisterEvent s.dummySyscallEventID s.engine } := by
  induction n with
  | zero =>
      intro s h
      rw [List.replicate_succ, runDummy_cons, stepDummy_release_last s (by omega)]
      rfl
  | succ n ih =>
      intro s h
      rw [List.replicate_succ, runDummy_cons, stepDummy_release_big s (by omega)]
      rw [ih _ (by show s.dummySyscallEventCount - 1 = (n : Int) + 1; omega)]
/-- An acquire with nonzero count only increments the count, touching
neither the engine nor the stored event id. -/
theorem stepDummy_acquire_nonzero (s : SensorState)
    (h : s.dummySyscallEventCount ≠ 0) (ok : Bool) :
    stepDummy (DummyOp.acquire ok) s =
      { s with dummySyscallEventCount := s.dummySyscallEventCount + 1 } := by
  unfold stepDummy registerGlobalDummySyscallEvent
  have hc : ¬(s.dummySyscallEventCount + 1 = 1) := by omega
  simp [hc]

/-- An acquire from count zero whose engine registration fails records the
failed attempt and rolls the count back to zero. -/
theorem stepDummy_acquire_zero_fail (s : SensorState)
    (h : s.dummySyscallEventCount = 0) :
    stepDummy (DummyOp.acquire false) s =
      { s with dummySyscallEventCount := 0,
               engine := { s.engine with
                  failedTracepointRegs := s.engine.failedTracepointRegs ++
                    [⟨s.names.syscallEnterName, s.containerCacheGroupID,
                      dummyFilter, 0⟩] } } := by
  unfold stepDummy registerGlobalDummySyscallEvent RegisterTracepoint
  simp [h]

/-- A release with count other than one only decrements the count. -/
theorem stepDummy_release_nonone (s : SensorState)
    (h : s.dummySyscallEventCount ≠ 1) :
    stepDummy DummyOp.release s =
      { s with dummySyscallEventCount := s.dummySyscallEventCount - 1 } := by
  unfold stepDummy globalDummyUnregister
  have hc : ¬(s.dummySyscallEventCount - 1 = 0) := by omega
  simp [hc]

/-! ## Claims about the global dummy probe reference count (C1, C2, C3) -/

/-- The fully matched interleaving acquire, release, acquire, release. -/
def c1Trace : List DummyOp :=
  [DummyOp.acquire true, DummyOp.release, DummyOp.acquire true, DummyOp.release]

/-- C1 counterexample: a realizable interleaving of two acquires (with the
engine registration succeeding) fully matched by two releases that makes
two RegisterTracepoint calls and two UnregisterEvent calls, not exactly
one of each: the count returns to zero after the first release, so the
second acquire registers again. -/
theorem claim_C1_counterexample :
    c1Trace.countP (fun op => !DummyOp.isRelease op) = 2 ∧
    c1Trace.countP DummyOp.isRelease = 2 ∧
    legalDummy initialSensorState c1Trace = true ∧
    (runDummy initialSensorState c1Trace).engine.tracepointRegs.length = 2 ∧
    (runDummy initialSensorState c1Trace).engine.unregisteredIDs.length = 2 := by
  decide

/-- C1 (amended): for the global strategy, K acquires with a succeeding
engine followed by K matched releases (K at least 1) make exactly one
RegisterTracepoint call and exactly one UnregisterEvent call, and return
the count to zero; an interleaving whose count returns to zero before a
later acquire instead makes one registration/unregistration pair per
excursion of the count from zero. -/
theorem claim_C1_refcount_matched (K : Nat) (hK : 1 ≤ K) :
    (runDummy initialSensorState
      (List.replicate K (DummyOp.acquire true) ++
       List.replicate K DummyOp.release)).engine.tracepointRegs.length = 1 ∧
    (runDummy initialSensorState
      (List.replicate K (DummyOp.acquire true) ++
       List.replicate K DummyOp.release)).engine.unregisteredIDs.length = 1 ∧
    (runDummy initialSensorState
      (List.replicate K (DummyOp.acquire true) ++
       List.replicate K DummyOp.release)).dummySyscallEventCount = 0 := by
  obtain ⟨k, rfl⟩ : ∃ k, K = k + 1 := ⟨K - 1, by omega⟩
  rw [runDummy_append, List.replicate_succ, runDummy_cons,
    stepDummy_acquire_zero initialSensorState rfl,
    runDummy_acquires_pos k _ (by decide)]
  rw [runDummy_releases k _ (by push_cast; ring)]
  refine ⟨?_, ?_, ?_⟩ <;> simp [initialSensorState, UnregisterEvent]

/-- C1 witness: the amended statement at K = 2. -/
theorem claim_C1_witness :
    (runDummy initialSensorState
      (List.replicate 2 (DummyOp.acquire true) ++
       List.replicate 2 DummyOp.release)).engine.tracepointRegs.length = 1 ∧
    (runDummy initialSensorState
      (List.replicate 2 (DummyOp.acquire true) ++
       List.replicate 2 DummyOp.release)).engine.unregisteredIDs.length = 1 ∧
    (runDummy initialSensorState
      (List.replicate 2 (DummyOp.acquire true) ++
       List.replicate 2 DummyOp.release)).dummySyscallEventCount = 0 :=
  claim_C1_refcount_matched 2 (by decide)

/-- The inductive invariant tying unregistration calls to successful
registrations: never more unregistrations than registrations, and strictly
fewer while a holder remains. -/
def dummyCallInvariant (s : SensorState) : Prop :=
  s.engine.unregisteredIDs.length ≤ s.engine.tracepointRegs.length ∧
  (1 ≤ s.dummySyscallEventCount →
    s.engine.unregisteredIDs.length < s.engine.tracepointRegs.length)

/-- Every single step preserves the call invariant. -/
theorem stepDummy_invariant (op : DummyOp) (s : SensorState)
    (h : dummyCallInvariant s) : dummyCallInvariant (stepDummy op s) := by
  obtain ⟨h1, h2⟩ := h
  cases op with
  | acquire ok =>
      by_cases hc : s.dummySyscallEventCount = 0
      · cases ok
        · rw [stepDummy_acquire_zero_fail s hc]
          refine ⟨h1, fun hcount => ?_⟩
          have h3 : (1 : Int) ≤ 0 := hcount
          omega
        · rw [stepDummy_acquire_zero s hc]
          refine ⟨?_, fun hcount => ?_⟩ <;> simp [List.length_append] <;> omega
      · rw [stepDummy_acquire_nonzero s hc ok]
        refine ⟨h1, fun hcount => ?_⟩
        have h3 : 1 ≤ s.dummySyscallEventCount + 1 := hcount
        exact h2 (by omega)
  | release =>
      by_cases hc : s.dummySyscallEventCount = 1
      · rw [stepDummy_release_last s hc]
        refine ⟨?_, fun hcount => ?_⟩
        · have h3 := h2 (by omega)
          simp [UnregisterEvent, List.length_append]
          omega
        · have h3 : (1 : Int) ≤ 0 := hcount
          omega
      · rw [stepDummy_release_nonone s hc]
        refine ⟨h1, fun hcount => ?_⟩
        have h3 : 1 ≤ s.dummySyscallEventCount - 1 := hcount
        exact h2 (by omega)

/-- Every run preserves the call invariant. -/
theorem runDummy_invariant (ops : List DummyOp) :
    ∀ s : SensorState, dummyCallInvariant s →
      dummyCallInvariant (runDummy s ops) := by
  induction ops with
  | nil => intro s h; exact h
  | cons op ops ih =>
      intro s h
      rw [runDummy_cons]
      exact ih _ (stepDummy_invariant op s h)

/-- C2: for every sequence of acquire and release operations on the global
dummy probe, even with releases outnumbering acquires, the number of
UnregisterEvent calls never exceeds the number of successful
RegisterTracepoint calls: at most one unregistration follows each
successful registration. -/
theorem claim_C2_no_overrelease_retrigger :
    ∀ ops : List DummyOp,
      (runDummy initialSensorState ops).engine.unregisteredIDs.length ≤
      (runDummy initialSensorState ops).engine.tracepointRegs.length :=
  fun ops =>
    (runDummy_invariant ops initialSensorState ⟨by decide, by decide⟩).1

/-- Along any realizable trace the count stays nonnegative. -/
theorem runDummy_count_nonneg (ops : List DummyOp) :
    ∀ s : SensorState, 0 ≤ s.dummySyscallEventCount →
      legalDummy s ops = true →
      0 ≤ (runDummy s ops).dummySyscallEventCount := by
  induction ops with
  | nil => intro s h _; exact h
  | cons op ops ih =>
      intro s h0 hl
      cases op with
      | acquire ok =>
          rw [runDummy_cons]
          have hl2 : legalDummy (stepDummy (DummyOp.acquire ok) s) ops = true := hl
          refine ih _ ?_ hl2
          by_cases hc : s.dummySyscallEventCount = 0
          · cases ok
            · rw [stepDummy_acquire_zero_fail s hc]
            · rw [stepDummy_acquire_zero s hc]; exact zero_le_one
          · rw [stepDummy_acquire_nonzero s hc ok]
            show 0 ≤ s.dummySyscallEventCount + 1
            omega
      | release =>
          rw [runDummy_cons]
          have hl1 : (decide (1 ≤ s.dummySyscallEventCount) &&
              legalDummy (stepDummy DummyOp.release s) ops) = true := hl
          rw [Bool.and_eq_true] at hl1
          obtain ⟨hd, hl2⟩ := hl1
          have h1 : 1 ≤ s.dummySyscallEventCount := of_decide_eq_true hd
          refine ih _ ?_ hl2
          by_cases hc : s.dummySyscallEventCount = 1
          · rw [stepDummy_release_last s hc]
          · rw [stepDummy_release_nonone s hc]
            show 0 ≤ s.dummySyscallEventCount - 1
            omega

/-- C3: along every realizable sequence of acquires and releases (each
release performed by a holder from a successful acquire) the dummy probe
count never becomes negative, and only the transition from 0 on acquire
and the transition from 1 on release touch the engine: an acquire at
nonzero count and a release at count other than 1 leave the engine
untouched, while an acquire at 0 makes a RegisterTracepoint call and a
release at 1 makes an UnregisterEvent call. -/
theorem claim_C3_count_and_side_effects :
    (∀ ops : List DummyOp, legalDummy initialSensorState ops = true →
        0 ≤ (runDummy initialSensorState ops).dummySyscallEventCount) ∧
    (∀ (s : SensorState) (ok : Bool), s.dummySyscallEventCount ≠ 0 →
        (stepDummy (DummyOp.acquire ok) s).engine = s.engine) ∧
    (∀ s : SensorState, s.dummySyscallEventCount ≠ 1 →
        (stepDummy DummyOp.release s).engine = s.engine) ∧
    (∀ s : SensorState, s.dummySyscallEventCount = 0 →
        (stepDummy (DummyOp.acquire true) s).engine.tracepointRegs.length =
          s.engine.tracepointRegs.length + 1) ∧
    (∀ s : SensorState, s.dummySyscallEventCount = 1 →
        (stepDummy DummyOp.release s).engine.unregisteredIDs.length =
          s.engine.unregisteredIDs.length + 1) := by
  refine ⟨fun ops hl =>
      runDummy_count_nonneg ops initialSensorState (by decide) hl,
    ?_, ?_, ?_, ?_⟩
  · intro s ok h; rw [stepDummy_acquire_nonzero s h ok]
  · intro s h; rw [stepDummy_release_nonone s h]
  · intro s h; rw [stepDummy_acquire_zero s h]; simp
  · intro s h; rw [stepDummy_release_last s h]; simp [UnregisterEvent]

/-- C3 witness: the count is nonnegative after the realizable trace of one
acquire and one release, and the side-effect characterizations at a
concrete state with count 5. -/
theorem claim_C3_witness :
    0 ≤ (runDummy initialSensorState
      [DummyOp.acquire true, DummyOp.release]).dummySyscallEventCount ∧
    (stepDummy (DummyOp.acquire true)
      { initialSensorState with dummySyscallEventCount := 5 }).engine =
      ({ initialSensorState with dummySyscallEventCount := 5 } : SensorState).engine :=
  ⟨claim_C3_count_and_side_effects.1 [DummyOp.acquire true, DummyOp.release] (by decide),
   claim_C3_count_and_side_effects.2.1
     { initialSensorState with dummySyscallEventCount := 5 } true (by decide)⟩

/-! ## Helper lemmas on name resolution and registration -/

/-- A successful once-resolution always yields a resolved state. -/
theorem syscallOnceDo_resolved (env : KernelEnv) (ns ns2 : NamesState)
    (h : syscallOnceDo env ns = some ns2) : ns2.resolved = true := by
  unfold syscallOnceDo at h
  by_cases hr : ns.resolved
  · rw [if_pos hr] at h
    cases h
    exact hr
  · rw [if_neg hr] at h
    cases hi : initSyscallNames env with
    | none => rw [hi] at h; cases h
    | some p =>
        obtain ⟨a, b⟩ := p
        rw [hi] at h
        cases h
        rfl

/-- The once guard returns a resolved state unchanged. -/
theorem syscallOnceDo_of_resolved (env : KernelEnv) (ns : NamesState)
    (h : ns.resolved = true) : syscallOnceDo env ns = some ns := by
  unfold syscallOnceDo
  rw [if_pos h]

/-- The global acquire never changes the resolved names. -/
theorem registerGlobalDummySyscallEvent_names (ok : Bool) (s : SensorState) :
    ((registerGlobalDummySyscallEvent ok s).2).names = s.names := by
  unfold registerGlobalDummySyscallEvent RegisterTracepoint
  cases ok <;> by_cases hc : s.dummySyscallEventCount + 1 = 1 <;> simp [hc]

/-- The global acquire never submits a kprobe. -/
theorem registerGlobalDummySyscallEvent_kprobeRegs (ok : Bool) (s : SensorState) :
    ((registerGlobalDummySyscallEvent ok s).2).engine.kprobeRegs =
      s.engine.kprobeRegs := by
  unfold registerGlobalDummySyscallEvent RegisterTracepoint
  cases ok <;> by_cases hc : s.dummySyscallEventCount + 1 = 1 <;> simp [hc]

/-- A global acquire that reports success leaves the count incremented. -/
theorem registerGlobalDummySyscallEvent_count_true (ok : Bool) (s : SensorState)
    (h : (registerGlobalDummySyscallEvent ok s).1 = true) :
    ((registerGlobalDummySyscallEvent ok s).2).dummySyscallEventCount =
      s.dummySyscallEventCount + 1 := by
  unfold registerGlobalDummySyscallEvent RegisterTracepoint at h ⊢
  cases ok <;> by_cases hc : s.dummySyscallEventCount + 1 = 1 <;>
    simp [hc] at h ⊢ <;> omega

/-- A global acquire that reports failure leaves the count unchanged. -/
theorem registerGlobalDummySyscallEvent_count_false (ok : Bool) (s : SensorState)
    (h : (registerGlobalDummySyscallEvent ok s).1 = false) :
    ((registerGlobalDummySyscallEvent ok s).2).dummySyscallEventCount =
      s.dummySyscallEventCount := by
  unfold registerGlobalDummySyscallEvent RegisterTracepoint at h ⊢
  cases ok <;> by_cases hc : s.dummySyscallEventCount + 1 = 1 <;>
    simp [hc] at h ⊢ <;> omega

/-- A global acquire from count zero with a failing engine reports
failure. -/
theorem registerGlobalDummySyscallEvent_fst_of_fail (s : SensorState)
    (h0 : s.dummySyscallEventCount = 0) :
    (registerGlobalDummySyscallEvent false s).1 = false := by
  unfold registerGlobalDummySyscallEvent RegisterTracepoint
  simp [h0]

/-- A release always decrements the count by one. -/
theorem globalDummyUnregister_count (s : SensorState) :
    (globalDummyUnregister s).dummySyscallEventCount =
      s.dummySyscallEventCount - 1 := by
  unfold globalDummyUnregister
  by_cases hc : s.dummySyscallEventCount - 1 = 0 <;> simp [hc]

/-- A release never changes the resolved names. -/
theorem globalDummyUnregister_names (s : SensorState) :
    (globalDummyUnregister s).names = s.names := by
  unfold globalDummyUnregister
  by_cases hc : s.dummySyscallEventCount - 1 = 0 <;> simp [hc]

/-- A release never submits a kprobe. -/
theorem globalDummyUnregister_kprobeRegs (s : SensorState) :
    (globalDummyUnregister s).engine.kprobeRegs = s.engine.kprobeRegs := by
  unfold globalDummyUnregister UnregisterEvent
  by_cases hc : s.dummySyscallEventCount - 1 = 0 <;> simp [hc]

/-- Applying an unregister hook never changes the resolved names. -/
theorem applyHook_names (hook : UnregisterHook) (s : SensorState) :
    (applyHook hook s).names = s.names := by
  cases hook
  · rfl
  · exact globalDummyUnregister_names s

/-- Applying an unregister hook never submits a kprobe. -/
theorem applyHook_kprobeRegs (hook : UnregisterHook) (s : SensorState) :
    (applyHook hook s).engine.kprobeRegs = s.engine.kprobeRegs := by
  cases hook
  · rfl
  · exact globalDummyUnregister_kprobeRegs s

/-- The kprobe tail never changes the resolved names. -/
theorem finishKprobe_names (env : KernelEnv) (o : CallOracle)
    (hook : UnregisterHook) (sub : Subscription) (s : SensorState) :
    (finishKprobe env o hook sub s).sensor.names = s.names := by
  unfold finishKprobe registerKprobe
  by_cases hk : o.kprobeOk <;> simp [hk, applyHook_names]

/-- The kprobe tail submits exactly one kprobe request: the preferred
symbol when available, the legacy symbol otherwise, always with the fixed
fetch-arg string. -/
theorem finishKprobe_kprobeRegs (env : KernelEnv) (o : CallOracle)
    (hook : UnregisterHook) (sub : Subscription) (s : SensorState) :
    (finishKprobe env o hook sub s).sensor.engine.kprobeRegs =
      s.engine.kprobeRegs ++
        [⟨if env.phase1Available then syscallNewEnterKprobeAddress
          else syscallOldEnterKprobeAddress, syscallEnterKprobeFetchargs⟩] := by
  unfold finishKprobe registerKprobe
  by_cases hk : o.kprobeOk <;> cases hook <;>
    simp [hk, applyHook, globalDummyUnregister_kprobeRegs]

/-- Any sink the kprobe tail creates carries exactly the given hook. -/
theorem finishKprobe_sink_hook (env : KernelEnv) (o : CallOracle)
    (hook : UnregisterHook) (sub : Subscription) (s : SensorState) :
    ∀ sk : EventSink, (finishKprobe env o hook sub s).sink = some sk →
      sk.unregisterHook = hook := by
  unfold finishKprobe registerKprobe
  by_cases hk : o.kprobeOk <;> simp [hk]

/-- A failed kprobe registration creates no sink. -/
theorem finishKprobe_fail_sink (env : KernelEnv) (o : CallOracle)
    (hook : UnregisterHook) (sub : Subscription) (s : SensorState)
    (h : o.kprobeOk = false) :
    (finishKprobe env o hook sub s).sink = Option.none := by
  unfold finishKprobe registerKprobe
  simp [h]

/-- A failed kprobe registration under the global hook releases the dummy
dependency, returning the count to one less than on entry to the tail. -/
theorem finishKprobe_fail_count_global (env : KernelEnv) (o : CallOracle)
    (sub : Subscription) (s : SensorState) (h : o.kprobeOk = false) :
    (finishKprobe env o UnregisterHook.globalRelease sub s).sensor.dummySyscallEventCount =
      s.dummySyscallEventCount - 1 := by
  unfold finishKprobe registerKprobe
  simp [h, applyHook, globalDummyUnregister_count]

/-- A successful event-group creation keeps the sensor state other than
the group allocator. -/
theorem createEventGroup_some (ok : Bool) (sub sub1 : Subscription)
    (s s1 : SensorState)
    (h : createEventGroup ok sub s = some (sub1, s1)) :
    s1.names = s.names ∧ s1.engine = s.engine ∧
    s1.dummySyscallEventCount = s.dummySyscallEventCount := by
  unfold createEventGroup at h
  cases ok with
  | false => simp at h
  | true =>
      cases hg : sub.eventGroupID with
      | none =>
          rw [hg] at h
          simp at h
          obtain ⟨h1, h2⟩ := h
          rw [← h2]
          exact ⟨rfl, rfl, rfl⟩
      | some g =>
          rw [hg] at h
          simp at h
          obtain ⟨h1, h2⟩ := h
          rw [← h2]
          exact ⟨rfl, rfl, rfl⟩

/-- The local acquire keeps the resolved names, the kprobe requests, and
the global dummy count. -/
theorem registerLocalDummySyscallEvent_state (a b : Bool)
    (sub : Subscription) (s : SensorState) :
    ((registerLocalDummySyscallEvent a b sub s).2.2).names = s.names ∧
    ((registerLocalDummySyscallEvent a b sub s).2.2).engine.kprobeRegs =
      s.engine.kprobeRegs ∧
    ((registerLocalDummySyscallEvent a b sub s).2.2).dummySyscallEventCount =
      s.dummySyscallEventCount := by
  unfold registerLocalDummySyscallEvent
  cases hg : createEventGroup a sub s with
  | none => simp
  | some p =>
      obtain ⟨sub1, s1⟩ := p
      have hc := createEventGroup_some a sub sub1 s s1 hg
      unfold RegisterTracepoint
      cases b <;> simp [hc.1, hc.2.1, hc.2.2]

/-- Master characterization of a completed (non-fatal)
RegisterSyscallEnterEventFilter call: the names come from the once guard,
at most one kprobe request with the availability-selected symbol and the
fixed fetchargs is submitted, any created sink carries the strategy's
hook, and on the global strategy the failure paths leave the count as it
was on entry. -/
theorem RegisterSyscallEnterEventFilter_spec (env : KernelEnv)
    (o : CallOracle) (sub : Subscription) (s : SensorState)
    (out : RegisterOutcome)
    (h : RegisterSyscallEnterEventFilter env o sub s = some out) :
    ∃ ns : NamesState, syscallOnceDo env s.names = some ns ∧
      out.sensor.names = ns ∧
      (out.sensor.engine.kprobeRegs = s.engine.kprobeRegs ∨
       out.sensor.engine.kprobeRegs = s.engine.kprobeRegs ++
         [⟨if env.phase1Available then syscallNewEnterKprobeAddress
           else syscallOldEnterKprobeAddress, syscallEnterKprobeFetchargs⟩]) ∧
      (∀ sk : EventSink, out.sink = some sk →
        sk.unregisterHook =
          (if env.kernelMajor < 3 then UnregisterHook.noHook
           else UnregisterHook.globalRelease)) ∧
      (¬ env.kernelMajor < 3 →
        ((o.dummyOk = false → s.dummySyscallEventCount = 0 →
            out.sink = Option.none ∧
            out.sensor.dummySyscallEventCount = s.dummySyscallEventCount) ∧
         (o.kprobeOk = false →
            out.sink = Option.none ∧
            out.sensor.dummySyscallEventCount = s.dummySyscallEventCount))) := by
  unfold RegisterSyscallEnterEventFilter at h
  cases hns : syscallOnceDo env s.names with
  | none => rw [hns] at h; cases h
  | some ns =>
      rw [hns] at h
      dsimp only at h
      refine ⟨ns, rfl, ?_⟩
      by_cases hm : env.kernelMajor < 3
      · rw [if_pos hm] at h
        rcases hloc : registerLocalDummySyscallEvent o.createGroupOk o.dummyOk
            sub { s with names := ns } with ⟨r, sub2, s2⟩
        rw [hloc] at h
        have hstate := registerLocalDummySyscallEvent_state o.createGroupOk
          o.dummyOk sub { s with names := ns }
        rw [hloc] at hstate
        cases r
        · cases h
          refine ⟨hstate.1, Or.inl hstate.2.1, ?_, fun hmaj => absurd hm hmaj⟩
          intro sk hsk
          cases hsk
        · cases h
          refine ⟨?_, Or.inr ?_, ?_, fun hmaj => absurd hm hmaj⟩
          · rw [finishKprobe_names, hstate.1]
          · rw [finishKprobe_kprobeRegs, hstate.2.1]
          · intro sk hsk
            rw [if_pos hm]
            exact finishKprobe_sink_hook env o UnregisterHook.noHook sub2 s2 sk hsk
      · rw [if_neg hm] at h
        rcases hg : registerGlobalDummySyscallEvent o.dummyOk
            { s with names := ns } with ⟨r, s2⟩
        rw [hg] at h
        have hnames := registerGlobalDummySyscallEvent_names o.dummyOk
          { s with names := ns }
        have hkpr := registerGlobalDummySyscallEvent_kprobeRegs o.dummyOk
          { s with names := ns }
        rw [hg] at hnames hkpr
        cases r
        · cases h
          have hfst : (registerGlobalDummySyscallEvent o.dummyOk
              { s with names := ns }).1 = false := by rw [hg]
          have hcount := registerGlobalDummySyscallEvent_count_false o.dummyOk
            { s with names := ns } hfst
          rw [hg] at hcount
          refine ⟨hnames, Or.inl hkpr, ?_, fun _ => ⟨fun _ _ => ⟨rfl, hcount⟩,
            fun _ => ⟨rfl, hcount⟩⟩⟩
          intro sk hsk
          cases hsk
        · cases h
          have hfst : (registerGlobalDummySyscallEvent o.dummyOk
              { s with names := ns }).1 = true := by rw [hg]
          have hcount := registerGlobalDummySyscallEvent_count_true o.dummyOk
            { s with names := ns } hfst
          rw [hg] at hcount
          refine ⟨?_, Or.inr ?_, ?_, fun _ => ⟨?_, ?_⟩⟩
          · rw [finishKprobe_names, hnames]
          · rw [finishKprobe_kprobeRegs, hkpr]
          · intro sk hsk
            rw [if_neg hm]
            exact finishKprobe_sink_hook env o UnregisterHook.globalRelease sub s2 sk hsk
          · intro hdo hcnt
            have : (registerGlobalDummySyscallEvent o.dummyOk
                { s with names := ns }).1 = false := by
              rw [hdo]
              exact registerGlobalDummySyscallEvent_fst_of_fail _ hcnt
            rw [hg] at this
            cases this
          · intro hko
            refine ⟨finishKprobe_fail_sink env o UnregisterHook.globalRelease sub s2 hko, ?_⟩
            rw [finishKprobe_fail_count_global env o sub s2 hko, hcount]
            show s.dummySyscallEventCount + 1 - 1 = s.dummySyscallEventCount
            omega

/-! ## Claims about registration (C4, C5, C6, C9) -/

/-- A simulated kernel with major version 4 where everything exists. -/
def envMajor4 : KernelEnv :=
  { kernelMajor := 4, rawSysEnterExists := true,
    sysEnterExists := true, phase1Available := true }

/-- The Scenario D kernel: major 4 with the preferred entry-probe symbol
unavailable. -/
def envScenarioD : KernelEnv :=
  { kernelMajor := 4, rawSysEnterExists := true,
    sysEnterExists := true, phase1Available := false }

/-- An oracle whose engine accepts everything except the kprobe. -/
def oracleKprobeFail : CallOracle :=
  { createGroupOk := true, dummyOk := true, kprobeOk := false }

/-- A default outcome used only to name concrete outcomes in witnesses. -/
def defaultOutcome : RegisterOutcome :=
  { sink := Option.none, sub := {}, sensor := initialSensorState }

/-- C4: failure paths are atomic for the global strategy. When the dummy
tracepoint registration fails the count is rolled back to its prior value
and no sink is created, and when the syscall-enter kprobe registration
fails the acquired dummy dependency is released, so a failed
RegisterSyscallEnterEventFilter call never leaves an incremented count or
a dangling dependency. -/
theorem claim_C4_failure_atomicity :
    ∀ (env : KernelEnv) (o : CallOracle) (sub : Subscription)
      (s : SensorState) (out : RegisterOutcome),
      3 ≤ env.kernelMajor →
      RegisterSyscallEnterEventFilter env o sub s = some out →
      ((o.dummyOk = false → s.dummySyscallEventCount = 0 →
          out.sink = Option.none ∧
          out.sensor.dummySyscallEventCount = s.dummySyscallEventCount) ∧
       (o.kprobeOk = false →
          out.sink = Option.none ∧
          out.sensor.dummySyscallEventCount = s.dummySyscallEventCount)) := by
  intro env o sub s out hmaj h
  obtain ⟨ns, _, _, _, _, h5⟩ :=
    RegisterSyscallEnterEventFilter_spec env o sub s out h
  exact h5 (by omega)

/-- C4 witness: on a major-4 kernel with a failing kprobe engine, the call
from the initial state creates no sink and leaves the count at zero. -/
theorem claim_C4_witness :
    ((RegisterSyscallEnterEventFilter envMajor4 oracleKprobeFail {}
        initialSensorState).getD defaultOutcome).sink = Option.none ∧
    ((RegisterSyscallEnterEventFilter envMajor4 oracleKprobeFail {}
        initialSensorState).getD defaultOutcome).sensor.dummySyscallEventCount =
      initialSensorState.dummySyscallEventCount :=
  (claim_C4_failure_atomicity envMajor4 oracleKprobeFail {} initialSensorState
      ((RegisterSyscallEnterEventFilter envMajor4 oracleKprobeFail {}
        initialSensorState).getD defaultOutcome)
      (by decide) (by decide)).2 rfl

/-- C5: name resolution prefers raw_syscalls/sys_enter with its exit twin,
falls back to the syscalls namespace, aborts fatally (modelled Option.none)
when neither sys_enter tracepoint exists, runs at most once (a resolved
state is returned unchanged), and every completed registration call leaves
the names resolved and reuses previously resolved names unchanged. -/
theorem claim_C5_syscall_name_resolution :
    (∀ env : KernelEnv, env.rawSysEnterExists = true →
        initSyscallNames env =
          some ("raw_syscalls/sys_enter", "raw_syscalls/sys_exit")) ∧
    (∀ env : KernelEnv, env.rawSysEnterExists = false →
        env.sysEnterExists = true →
        initSyscallNames env =
          some ("syscalls/sys_enter", "syscalls/sys_exit")) ∧
    (∀ env : KernelEnv, env.rawSysEnterExists = false →
        env.sysEnterExists = false → initSyscallNames env = Option.none) ∧
    (∀ (env : KernelEnv) (ns : NamesState), ns.resolved = true →
        syscallOnceDo env ns = some ns) ∧
    (∀ (env : KernelEnv) (o : CallOracle) (sub : Subscription)
        (s : SensorState) (out : RegisterOutcome),
        RegisterSyscallEnterEventFilter env o sub s = some out →
        out.sensor.names.resolved = true ∧
        (s.names.resolved = true → out.sensor.names = s.names)) := by
  refine ⟨?_, ?_, ?_, syscallOnceDo_of_resolved, ?_⟩
  · intro env h
    unfold initSyscallNames
    simp [h]
  · intro env h1 h2
    unfold initSyscallNames
    simp [h1, h2]
  · intro env h1 h2
    unfold initSyscallNames
    simp [h1, h2]
  · intro env o sub s out h
    obtain ⟨ns, h1, h2, _, _, _⟩ :=
      RegisterSyscallEnterEventFilter_spec env o sub s out h
    constructor
    · rw [h2]
      exact syscallOnceDo_resolved env s.names ns h1
    · intro hres
      have hsame := syscallOnceDo_of_resolved env s.names hres
      rw [hsame] at h1
      injection h1 with hinj
      exact h2.trans hinj.symm

/-- C5 witness: a raw-capable kernel resolves to the raw_syscalls pair,
and a completed registration from the initial state leaves the names
resolved. -/
theorem claim_C5_witness :
    initSyscallNames envMajor4 =
      some ("raw_syscalls/sys_enter", "raw_syscalls/sys_exit") ∧
    ((RegisterSyscallEnterEventFilter envMajor4 oracleAllOk {}
        initialSensorState).getD defaultOutcome).sensor.names.resolved = true :=
  ⟨claim_C5_syscall_name_resolution.1 envMajor4 rfl,
   (claim_C5_syscall_name_resolution.2.2.2.2 envMajor4 oracleAllOk {}
      initialSensorState
      ((RegisterSyscallEnterEventFilter envMajor4 oracleAllOk {}
        initialSensorState).getD defaultOutcome) (by decide)).1⟩

/-- C6: every syscall-enter kprobe registration submitted by a completed
RegisterSyscallEnterEventFilter call uses syscall_trace_enter_phase1 when
that symbol is available and syscall_trace_enter otherwise, always with
the unchanged fixed fetch-arg string placing id at +120 of the pt_regs
pointer and arg0..arg5 at the fixed offsets. -/
theorem claim_C6_kprobe_symbol_fetchargs :
    (∀ (env : KernelEnv) (o : CallOracle) (sub : Subscription)
        (s : SensorState) (out : RegisterOutcome),
        RegisterSyscallEnterEventFilter env o sub s = some out →
        out.sensor.engine.kprobeRegs = s.engine.kprobeRegs ∨
        out.sensor.engine.kprobeRegs = s.engine.kprobeRegs ++
          [⟨if env.phase1Available then syscallNewEnterKprobeAddress
            else syscallOldEnterKprobeAddress, syscallEnterKprobeFetchargs⟩]) ∧
    syscallEnterKprobeFetchargs =
      "id=+120(%di):s64 arg0=+112(%di):u64 arg1=+104(%di):u64 arg2=+96(%di):u64 arg3=+56(%di):u64 arg4=+72(%di):u64 arg5=+64(%di):u64" := by
  constructor
  · intro env o sub s out h
    obtain ⟨ns, _, _, h3, _, _⟩ :=
      RegisterSyscallEnterEventFilter_spec env o sub s out h
    exact h3
  · rfl

/-- C6 witness: Scenario D, a major-4 kernel with the preferred symbol
unavailable, registers the kprobe with the legacy symbol and the unchanged
fetch-arg string. -/
theorem claim_C6_witness :
    ((RegisterSyscallEnterEventFilter envScenarioD oracleAllOk {}
        initialSensorState).getD defaultOutcome).sensor.engine.kprobeRegs =
      initialSensorState.engine.kprobeRegs ∨
    ((RegisterSyscallEnterEventFilter envScenarioD oracleAllOk {}
        initialSensorState).getD defaultOutcome).sensor.engine.kprobeRegs =
      initialSensorState.engine.kprobeRegs ++
        [⟨if envScenarioD.phase1Available then syscallNewEnterKprobeAddress
          else syscallOldEnterKprobeAddress, syscallEnterKprobeFetchargs⟩] :=
  claim_C6_kprobe_symbol_fetchargs.1 envScenarioD oracleAllOk {}
    initialSensorState
    ((RegisterSyscallEnterEventFilter envScenarioD oracleAllOk {}
      initialSensorState).getD defaultOutcome) (by decide)

/-- C9: on a kernel with major version below 3 every sink created by
RegisterSyscallEnterEventFilter carries the nil unregister hook, and in
the concrete major-2 scenario of subscribing twice then unsubscribing
once, no UnregisterEvent call has been made for any dummy tracepoint
registration, the two dummy registrations living in the two
subscription-owned event groups. -/
theorem claim_C9_local_never_unregistered :
    (∀ (env : KernelEnv) (o : CallOracle) (sub : Subscription)
        (s : SensorState) (out : RegisterOutcome),
        env.kernelMajor < 3 →
        RegisterSyscallEnterEventFilter env o sub s = some out →
        ∀ sk : EventSink, out.sink = some sk →
          sk.unregisterHook = UnregisterHook.noHook) ∧
    localScenarioFinal.map noDummyUnregistered = some true ∧
    localScenarioFinal.map
      (fun st => st.engine.tracepointRegs.map TracepointRegistration.groupID) =
      some [1, 2] := by
  refine ⟨?_, by decide, by decide⟩
  intro env o sub s out hm h sk hsk
  obtain ⟨ns, _, _, _, h4, _⟩ :=
    RegisterSyscallEnterEventFilter_spec env o sub s out h
  have hhook := h4 sk hsk
  rw [if_pos hm] at hhook
  exact hhook

/-- C9 witness: on the simulated major-2 kernel the sink created by the
first subscription carries the nil hook. -/
theorem claim_C9_witness :
    (((RegisterSyscallEnterEventFilter envMajor2 oracleAllOk {}
        initialSensorState).getD defaultOutcome).sink.getD
      ⟨0, UnregisterHook.globalRelease⟩).unregisterHook =
      UnregisterHook.noHook :=
  claim_C9_local_never_unregistered.1 envMajor2 oracleAllOk {}
    initialSensorState
    ((RegisterSyscallEnterEventFilter envMajor2 oracleAllOk {}
      initialSensorState).getD defaultOutcome)
    (by decide) (by decide)
    (((RegisterSyscallEnterEventFilter envMajor2 oracleAllOk {}
      initialSensorState).getD defaultOutcome).sink.getD
      ⟨0, UnregisterHook.globalRelease⟩)
    (by decide)
